import Mathlib

/-!
Verification of the wave-based spawn scheduling and combat subsystem of the
vertical-scrolling shooter in this repository.  The definitions below are a
shallow embedding of the Python source:

* `FormationType`, `FormationPattern`, `FormationPattern.update` and
  `get_position_for_index` embed `src/engine/managers/enemy_manager.py`
  (class `FormationPattern`, lines 21-179).
* `WaveState` and its operations embed `src/engine/managers/wave_manager.py`.
* `EnemyMState` with `EnemyMState.set_waves`, `process_formation_spawns`,
  `EnemyMState.update` and `EnemyMState.simulate` embed the `EnemyManager`
  class of `enemy_manager.py`.
* `PlayerState.take_damage` embeds `Player.take_damage` of
  `src/entities/player.py`, lines 667-702.
* `scaled_count`, `scaled_interval` and `LevelMState.scale_difficulty` embed
  `LevelManager.scale_difficulty` of `src/engine/managers/level_manager.py`.

Python `float` arithmetic is modelled by exact rational arithmetic (`ℚ`):
all timer and interval values exercised here are small dyadic or decimal
constants for which the float computations of the source agree with `ℚ`.
Python `int` is `ℤ` (or `ℕ` for counts and indices), with `//` embedded as
flooring division (`Int.fdiv` / `Nat.div`).  `math.cos` and `math.pi` are
modelled by `Real.cos` and `Real.pi`; Python `int(x)` truncation is `pyInt`.
Calls to the global random generator (`random.randint`, `random.choice`) are
modelled by explicit oracle arguments that the embedded code threads through;
no claim below depends on the oracle's values.
-/

/-- Enumeration `FormationType` of `enemy_manager.py` (lines 21-29). -/
inductive FormationType where
  | RANDOM
  | LINE
  | V_SHAPE
  | CIRCLE
  | ARC
  | DIAMOND
deriving DecidableEq

/-- The `.value` string of each `FormationType` member. -/
def FormationType.value : FormationType → String
  | .RANDOM => "random"
  | .LINE => "line"
  | .V_SHAPE => "v_shape"
  | .CIRCLE => "circle"
  | .ARC => "arc"
  | .DIAMOND => "diamond"

/-- State of a `FormationPattern` object (`enemy_manager.py`, lines 32-78):
constructor arguments plus the mutable spawning state. -/
structure FormationPattern where
  formation_type : FormationType
  enemy_type : String
  count : ℕ
  screen_width : ℤ
  spawn_delay : ℚ
  x_offset : ℤ
  spacing : ℤ
  spawned_count : ℕ
  spawn_timer : ℚ
  complete : Bool
deriving DecidableEq

/-- Python `int(x)`: truncation toward zero of a real number. -/
noncomputable def pyInt (x : ℝ) : ℤ :=
  if 0 ≤ x then ⌊x⌋ else ⌈x⌉

/-- `FormationPattern._get_position_for_index` (`enemy_manager.py`,
lines 119-179).  The `RANDOM` branch calls `random.randint(50, w-50)`,
modelled by the oracle argument `rand`; no claim depends on it. -/
noncomputable def get_position_for_index (f : FormationPattern) (index : ℕ) (rand : ℤ) : ℤ :=
  let center := f.screen_width.fdiv 2 + f.x_offset
  match f.formation_type with
  | FormationType.RANDOM => rand
  | FormationType.LINE =>
    let total_width := ((f.count : ℤ) - 1) * f.spacing
    let start_x := center - total_width.fdiv 2
    start_x + (index : ℤ) * f.spacing
  | FormationType.V_SHAPE =>
    let half := (f.count : ℤ).fdiv 2
    if (index : ℤ) < half then center - (half - (index : ℤ)) * f.spacing
    else center + ((index : ℤ) - half) * f.spacing
  | FormationType.CIRCLE =>
    let radius : ℝ := (f.count : ℝ) * (f.spacing : ℝ) / (2 * Real.pi)
    let angle : ℝ := 2 * Real.pi * (index : ℝ) / (f.count : ℝ)
    center + pyInt (Real.cos angle * radius)
  | FormationType.ARC =>
    let radius : ℝ := (f.count : ℝ) * (f.spacing : ℝ) / Real.pi
    let angle : ℝ := if 1 < f.count then Real.pi * (index : ℝ) / ((f.count : ℝ) - 1) else 0
    center + pyInt (Real.cos angle * radius)
  | FormationType.DIAMOND =>
    let quarter := (f.count : ℤ).fdiv 4
    if (index : ℤ) < quarter then center - (quarter - (index : ℤ)) * f.spacing
    else if (index : ℤ) < quarter * 2 then center + ((index : ℤ) - quarter) * f.spacing
    else if (index : ℤ) < quarter * 3 then center + (quarter * 2 - (index : ℤ)) * f.spacing
    else center - ((index : ℤ) - quarter * 3) * f.spacing

/-- `FormationPattern.update` (`enemy_manager.py`, lines 80-117): returns the
mutated pattern together with `some (should_spawn, x_position)` or `none`. -/
noncomputable def FormationPattern.update (f : FormationPattern) (dt : ℚ) (rand : ℤ) :
    FormationPattern × Option (Bool × ℤ) :=
  if f.complete then (f, none)
  else
    let f1 := { f with spawn_timer := f.spawn_timer + dt }
    if f1.spawn_delay ≤ f1.spawn_timer ∧ f1.spawned_count < f1.count then
      let x := get_position_for_index f1 f1.spawned_count rand
      let f2 := { f1 with spawn_timer := 0, spawned_count := f1.spawned_count + 1 }
      if f2.count ≤ f2.spawned_count then ({ f2 with complete := true }, some (true, x))
      else (f2, some (true, x))
    else (f1, none)

/-- A legacy enemy definition entry of a wave dictionary:
keys `type`, `count`, `interval`. -/
structure EnemyDef where
  etype : String
  count : ℕ
  interval : ℚ
deriving DecidableEq

/-- A formation definition dictionary as stored in a wave:
keys `type`, `enemy_type`, `count`, `interval` and optional `x_offset`. -/
structure FormationDef where
  ftype : FormationType
  enemy_type : String
  count : ℕ
  interval : ℚ
  x_offset : Option ℤ
deriving DecidableEq

/-- A wave dictionary: key `duration`, optional key `formations`,
and the legacy `enemies` list. -/
structure Wave where
  duration : ℚ
  formations : Option (List FormationDef)
  enemies : List EnemyDef
deriving DecidableEq

/-- A wave whose fields are all trivial, used as the (never taken)
out-of-range default when indexing the wave list under a bounds guard. -/
def emptyWave : Wave := { duration := 0, formations := none, enemies := [] }

/-- State of `WaveManager` (`wave_manager.py`, lines 8-22). -/
structure WaveState where
  waves : List Wave
  wave_index : ℕ
  wave_timer : ℚ
deriving DecidableEq

/-- `WaveManager.set_waves` (`wave_manager.py`, lines 24-42). -/
def WaveState.set_waves (_s : WaveState) (waves : List Wave) : WaveState :=
  { waves := waves, wave_index := 0, wave_timer := 0 }

/-- `WaveManager.update_wave_timer` (`wave_manager.py`, lines 44-74). -/
def WaveState.update_wave_timer (s : WaveState) (dt : ℚ) : WaveState × Bool :=
  let old_wave := s.wave_index
  let s1 := { s with wave_timer := s.wave_timer + dt }
  if s1.waves ≠ [] ∧ s1.wave_index < s1.waves.length then
    let current_wave := s1.waves.getD s1.wave_index emptyWave
    if current_wave.duration ≤ s1.wave_timer ∧ s1.wave_index < s1.waves.length - 1 then
      ({ s1 with wave_index := s1.wave_index + 1, wave_timer := 0 }, true)
    else (s1, decide (old_wave ≠ s1.wave_index))
  else (s1, decide (old_wave ≠ s1.wave_index))

/-- `WaveManager.get_current_wave` (`wave_manager.py`, lines 76-85). -/
def WaveState.get_current_wave (s : WaveState) : Option Wave :=
  s.waves[s.wave_index]?

/-- State of `EnemyManager` (`enemy_manager.py`, lines 182-216), restricted to
the spawn-scheduling fields (the sprite groups are external collaborators).
`formation_timers` is the per-spec timer dictionary, keyed by the
`"type_enemytype"` string. -/
structure EnemyMState where
  screen_width : ℤ
  wave_manager : WaveState
  active_formations : List FormationPattern
  formation_timers : List (String × ℚ)
deriving DecidableEq

/-- Dictionary read with default 0: models
`if key not in self.formation_timers: self.formation_timers[key] = 0`. -/
def lookupTimer (ts : List (String × ℚ)) (k : String) : ℚ :=
  ((ts.find? (fun p => p.1 = k)).map (fun p => p.2)).getD 0

/-- Dictionary write: update the entry for `k`, or append it. -/
def setTimer (ts : List (String × ℚ)) (k : String) (v : ℚ) : List (String × ℚ) :=
  if ts.any (fun p => p.1 = k) then ts.map (fun p => if p.1 = k then (k, v) else p)
  else ts ++ [(k, v)]

/-- The per-spec timer loop of `EnemyManager._process_formation_spawns`
(`enemy_manager.py`, lines 355-389): advance each spec's interval timer and
start a new `FormationPattern` (with the hard-coded `spawn_delay=0.2` and the
default `spacing=60`) whenever a timer crosses its spec's interval. -/
def startFormations (sw : ℤ) (dt : ℚ) :
    List FormationDef → List (String × ℚ) → List (String × ℚ) × List FormationPattern
  | [], timers => (timers, [])
  | d :: rest, timers =>
    let key := d.ftype.value ++ "_" ++ d.enemy_type
    let t := lookupTimer timers key + dt
    if d.interval ≤ t then
      let f : FormationPattern :=
        { formation_type := d.ftype, enemy_type := d.enemy_type, count := d.count,
          screen_width := sw, spawn_delay := 0.2, x_offset := d.x_offset.getD 0,
          spacing := 60, spawned_count := 0, spawn_timer := 0, complete := false }
      let res := startFormations sw dt rest (setTimer timers key 0)
      (res.1, f :: res.2)
    else
      startFormations sw dt rest (setTimer timers key t)

/-- The formation-processing loop of `EnemyManager._process_formation_spawns`
(`enemy_manager.py`, lines 346-353): update each active formation in order,
collecting the spawn requests `(enemy_type, x_position)` it emits. -/
noncomputable def stepFormations (dt : ℚ) (rand : ℤ) :
    List FormationPattern → List FormationPattern × List (String × ℤ)
  | [] => ([], [])
  | f :: rest =>
    let r := f.update dt rand
    let emitted : List (String × ℤ) :=
      match r.2 with
      | some (spawn, x) => if spawn then [(r.1.enemy_type, x)] else []
      | none => []
    let res := stepFormations dt rand rest
    (r.1 :: res.1, emitted ++ res.2)

/-- `EnemyManager._process_formation_spawns` (`enemy_manager.py`,
lines 335-392).  Returns the new state and the list of spawn requests
emitted this tick, in emission order. -/
noncomputable def process_formation_spawns (s : EnemyMState) (dt : ℚ) (rand : ℤ) :
    EnemyMState × List (String × ℤ) :=
  match s.wave_manager.get_current_wave with
  | none => (s, [])
  | some current_wave =>
    let step := stepFormations dt rand s.active_formations
    match current_wave.formations with
    | none => ({ s with active_formations := step.1 }, step.2)
    | some defs =>
      let started := startFormations s.screen_width dt defs s.formation_timers
      ({ s with active_formations := step.1 ++ started.2,
                formation_timers := started.1 }, step.2)

/-- `EnemyManager.update` (`enemy_manager.py`, lines 286-297), restricted to
formation bookkeeping: `_update_enemies` drops completed formations
(line 325), then `_process_formation_spawns` runs. -/
noncomputable def EnemyMState.update (s : EnemyMState) (dt : ℚ) (rand : ℤ) :
    EnemyMState × List (String × ℤ) :=
  let s1 := { s with active_formations := s.active_formations.filter (fun f => !f.complete) }
  process_formation_spawns s1 dt rand

/-- Legacy-definition synthesis of `EnemyManager.set_waves` (`enemy_manager.py`,
lines 238-278): pick a layout by archetype; `random.choice` for unrecognized
archetypes and `random.randint(-150, 150)` for the offset are modelled by the
oracle `rng` indexed by the enemy definition's position. -/
def synth_formation (rng : ℕ → ℤ × ℕ) (idx : ℕ) (e : EnemyDef) : FormationDef :=
  let ft :=
    if e.etype = "zigzag" then FormationType.V_SHAPE
    else if e.etype = "shooter" then FormationType.LINE
    else if e.etype = "heavy" then FormationType.DIAMOND
    else if e.etype = "shield" then FormationType.ARC
    else if e.etype = "dart" then FormationType.CIRCLE
    else [FormationType.LINE, FormationType.V_SHAPE, FormationType.ARC].getD
      ((rng idx).2 % 3) FormationType.LINE
  { ftype := ft, enemy_type := e.etype, count := e.count, interval := e.interval,
    x_offset := some (rng idx).1 }

/-- `EnemyManager.set_waves` (`enemy_manager.py`, lines 218-284): waves that
already carry a `formations` key are installed unchanged (no validation of
intervals or enemy lists); waves without one get formations synthesized from
their legacy enemy definitions.  Then the wave manager is reset and the
active formations and timers are cleared. -/
def EnemyMState.set_waves (rng : ℕ → ℤ × ℕ) (s : EnemyMState) (waves : List Wave) :
    EnemyMState :=
  let processed := waves.map (fun w =>
    match w.formations with
    | some _ => w
    | none =>
      let syns := w.enemies.enum.map (fun ie => synth_formation rng ie.1 ie.2)
      { w with formations := some syns })
  { s with wave_manager := s.wave_manager.set_waves processed,
           active_formations := [], formation_timers := [] }

/-- Drive the coordinator for consecutive updates of `dt` seconds each
(`EnemyManager.update` called once per frame); each emitted spawn request is
tagged with the simulated time of the tick that emitted it.  `k` is the
number of ticks already performed before this call. -/
noncomputable def simulateFrom (dt : ℚ) (rand : ℤ) (k : ℕ) :
    ℕ → EnemyMState → EnemyMState × List (ℚ × String × ℤ)
  | 0, s => (s, [])
  | n + 1, s =>
    let st := s.update dt rand
    let rest := simulateFrom dt rand (k + 1) n st.1
    (rest.1, st.2.map (fun r => (((k : ℚ) + 1) * dt, r)) ++ rest.2)

/-- Drive the coordinator for `n` updates of `dt` seconds each, starting from
simulated time 0, collecting the time-tagged spawn requests. -/
noncomputable def EnemyMState.simulate (s : EnemyMState) (dt : ℚ) (rand : ℤ) (n : ℕ) :
    EnemyMState × List (ℚ × String × ℤ) :=
  simulateFrom dt rand 0 n s

/-- Player combat state (`src/entities/player.py`): the fields read and
written by `Player.take_damage`. -/
structure PlayerState where
  health : ℤ
  max_health : ℤ
  shield : ℤ
  lives : ℤ
deriving DecidableEq

/-- Lines 690-702 of `Player.take_damage`: the alive check run after damage
has reached health.  Clamps health to 0, decrements lives, returns `false`
when lives are exhausted, otherwise respawns with full health. -/
def player_check_alive (p : PlayerState) : PlayerState × Bool :=
  if p.health ≤ 0 then
    let p1 := { p with health := 0, lives := p.lives - 1 }
    if p1.lives ≤ 0 then (p1, false)
    else ({ p1 with health := p1.max_health }, true)
  else (p, true)

/-- `Player.take_damage` (`player.py`, lines 667-702). -/
def PlayerState.take_damage (p : PlayerState) (amount : ℤ) : PlayerState × Bool :=
  if 0 < p.shield then
    if p.shield ≥ amount then ({ p with shield := p.shield - amount }, true)
    else player_check_alive { p with shield := 0, health := p.health - (amount - p.shield) }
  else player_check_alive { p with health := p.health - amount }

/-- The post-shield health value: what `self.health` holds right before the
alive check of `Player.take_damage`, in the cases where the shield does not
fully absorb the hit. -/
def health_after_shield (p : PlayerState) (amount : ℤ) : ℤ :=
  if 0 < p.shield then p.health - (amount - p.shield) else p.health - amount

/-- The scaled enemy count of `LevelManager.scale_difficulty`
(`level_manager.py`, line 116): `min(base_count + level // 2, base_count * 3)`. -/
def scaled_count (count level : ℕ) : ℕ :=
  min (count + level / 2) (count * 3)

/-- The scaled spawn interval of `LevelManager.scale_difficulty`
(`level_manager.py`, line 120): `max(base_interval * 0.8 ** (level - 1), 0.5)`,
with the float arithmetic modelled exactly over `ℚ` (`0.8 = 4/5`). -/
def scaled_interval (interval : ℚ) (level : ℕ) : ℚ :=
  max (interval * (4 / 5) ^ (level - 1)) (1 / 2)

/-- State of `LevelManager` (`level_manager.py`, lines 8-38), restricted to
the scalar fields (the `game` back-reference is an external collaborator). -/
structure LevelMState where
  current_level : ℕ
  level_time : ℚ
  level_duration : ℚ
  level_complete : Bool
  completion_timer : ℚ
deriving DecidableEq

/-- A wave dictionary as consumed by `scale_difficulty`: key `duration` and
the legacy `enemies` list. -/
structure LevelWave where
  duration : ℚ
  enemies : List EnemyDef
deriving DecidableEq

/-- `LevelManager.scale_difficulty` (`level_manager.py`, lines 92-144),
as a state transformer: it returns the freshly built scaled wave list and
the updated manager state (the method assigns
`self.level_duration = 90 + (self.current_level - 1) * 15` on line 138). -/
def LevelMState.scale_difficulty (s : LevelMState) (waves : List LevelWave) :
    List LevelWave × LevelMState :=
  let scaled_waves := waves.map (fun w =>
    { duration := w.duration,
      enemies := w.enemies.map (fun e =>
        { e with count := scaled_count e.count s.current_level,
                 interval := scaled_interval e.interval s.current_level }) })
  (scaled_waves, { s with level_duration := 90 + ((s.current_level : ℚ) - 1) * 15 })

/-- A randomness oracle with fixed values; the executions below never
consult it (no `RANDOM` formation and no legacy enemy synthesis occurs). -/
def rng0 : ℕ → ℤ × ℕ := fun _ => (0, 0)

/-- A freshly initialized `EnemyManager` for an 800-pixel-wide screen. -/
def emState0 : EnemyMState :=
  { screen_width := 800, wave_manager := { waves := [], wave_index := 0, wave_timer := 0 },
    active_formations := [], formation_timers := [] }

/-- The wave of end-to-end scenario 1: one formation spec with archetype
`basic`, count 3, interval 2.0 s, LINE layout (spacing 60 is the
`FormationPattern` default the coordinator always uses). -/
def c1Wave : Wave :=
  { duration := 60,
    formations := some [{ ftype := FormationType.LINE, enemy_type := "basic", count := 3,
                          interval := 2, x_offset := some 0 }],
    enemies := [] }

/-- The coordinator state right after `set_waves` installs `c1Wave`. -/
noncomputable def c1State : EnemyMState := emState0.set_waves rng0 [c1Wave]

/-- A malformed wave: its single formation spec has spawn interval 0. -/
def zeroIntervalWave : Wave :=
  { duration := 60,
    formations := some [{ ftype := FormationType.LINE, enemy_type := "basic", count := 1,
                          interval := 0, x_offset := some 0 }],
    enemies := [] }

/-- The coordinator state right after `set_waves` installs the malformed
zero-interval wave. -/
noncomputable def zeroIntervalState : EnemyMState := emState0.set_waves rng0 [zeroIntervalWave]

/-- A malformed wave with an empty enemy list and no formations key. -/
def emptyEnemiesWave : Wave := { duration := 60, formations := none, enemies := [] }

/-- The coordinator state right after `set_waves` installs the
empty-enemy-list wave. -/
noncomputable def emptyEnemiesState : EnemyMState := emState0.set_waves rng0 [emptyEnemiesWave]

/-- A `FormationPattern` as constructed by the coordinator for a LINE spec
(spawn delay 0.2, spacing 60), before any spawning. -/
def mkLine (w xoff S : ℤ) (N : ℕ) : FormationPattern :=
  { formation_type := FormationType.LINE, enemy_type := "basic", count := N,
    screen_width := w, spawn_delay := 0.2, x_offset := xoff, spacing := S,
    spawned_count := 0, spawn_timer := 0, complete := false }

/-- The x position of the `i`-th member of a LINE formation. -/
noncomputable def line_pos (w xoff S : ℤ) (N : ℕ) (i : ℕ) : ℤ :=
  get_position_for_index (mkLine w xoff S N) i 0

/-- A `FormationPattern` with ARC layout, before any spawning. -/
def mkArc (w xoff S : ℤ) (N : ℕ) : FormationPattern :=
  { formation_type := FormationType.ARC, enemy_type := "basic", count := N,
    screen_width := w, spawn_delay := 0.2, x_offset := xoff, spacing := S,
    spawned_count := 0, spawn_timer := 0, complete := false }

/-- The two-wave timeline of end-to-end scenario 5: durations 5 s and 10 s. -/
def twoWaveState : WaveState :=
  { waves := [{ duration := 5, formations := none, enemies := [] },
              { duration := 10, formations := none, enemies := [] }],
    wave_index := 0, wave_timer := 0 }

/-- The contract of one `update_wave_timer` tick, as stated by the spec: when
the accumulated time reaches the active wave's duration and the index is not
the last, the index advances and the timer resets, reporting a change;
otherwise the index stays and no change is reported. -/
def tick_result_spec (s : WaveState) (dt : ℚ) : Prop :=
  (((s.waves.getD s.wave_index emptyWave).duration ≤ s.wave_timer + dt ∧
      s.wave_index < s.waves.length - 1) →
    ((s.update_wave_timer dt).1.wave_index = s.wave_index + 1 ∧
     (s.update_wave_timer dt).1.wave_timer = 0 ∧
     (s.update_wave_timer dt).2 = true)) ∧
  (¬((s.waves.getD s.wave_index emptyWave).duration ≤ s.wave_timer + dt ∧
      s.wave_index < s.waves.length - 1) →
    ((s.update_wave_timer dt).1.wave_index = s.wave_index ∧
     (s.update_wave_timer dt).1.wave_timer = s.wave_timer + dt ∧
     (s.update_wave_timer dt).2 = false))

/-- A level manager sitting at level 2 with the initial 90-second duration. -/
def levelState2 : LevelMState :=
  { current_level := 2, level_time := 0, level_duration := 90,
    level_complete := false, completion_timer := 0 }

/-- The timeline state reached from `twoWaveState` after its first wave
change: index 1, timer 0. -/
def midWave : WaveState :=
  { waves := twoWaveState.waves, wave_index := 1, wave_timer := 0 }

/-- C2: for every level `L ≥ 1` and base count `C ≥ 1`, the scaled count is
`min(C + L / 2, C * 3)` with integer floor division, is monotonically
non-decreasing in `L`, and is bounded above by `3 * C`. -/
theorem scaled_count_formula_monotone_bounded (C L L' : ℕ)
    (hC : 1 ≤ C) (hL : 1 ≤ L) (hLL : L ≤ L') :
    scaled_count C L = min (C + L / 2) (C * 3) ∧
    scaled_count C L ≤ scaled_count C L' ∧
    scaled_count C L ≤ 3 * C := by
  refine ⟨rfl, ?_, ?_⟩
  · exact min_le_min (Nat.add_le_add_left (Nat.div_le_div_right hLL) C) le_rfl
  · calc scaled_count C L ≤ C * 3 := min_le_right _ _
    _ = 3 * C := Nat.mul_comm C 3

/-- Witness for C2 at `C = 2`, `L = 3`, `L' = 5`. -/
theorem scaled_count_formula_monotone_bounded_witness :
    (1 ≤ 2 ∧ 1 ≤ 3 ∧ 3 ≤ 5) ∧
    (scaled_count 2 3 = min (2 + 3 / 2) (2 * 3) ∧
     scaled_count 2 3 ≤ scaled_count 2 5 ∧
     scaled_count 2 3 ≤ 3 * 2) :=
  ⟨by decide,
   scaled_count_formula_monotone_bounded 2 3 5 (by decide) (by decide) (by decide)⟩

/-- C3: for every level `L ≥ 1` and base interval `B > 0`, the scaled
interval is `max(B * 0.8 ^ (L - 1), 0.5)`, is monotonically non-increasing
in `L`, and never drops below `0.5`. -/
theorem scaled_interval_formula_antitone_floored (B : ℚ) (L L' : ℕ)
    (hB : 0 < B) (hL : 1 ≤ L) (hLL : L ≤ L') :
    scaled_interval B L = max (B * (4 / 5) ^ (L - 1)) (1 / 2) ∧
    scaled_interval B L' ≤ scaled_interval B L ∧
    (1 / 2 : ℚ) ≤ scaled_interval B L := by
  refine ⟨rfl, ?_, le_max_right _ _⟩
  apply max_le_max _ le_rfl
  apply mul_le_mul_of_nonneg_left _ hB.le
  exact pow_le_pow_of_le_one (by norm_num) (by norm_num) (Nat.sub_le_sub_right hLL 1)

/-- Witness for C3 at `B = 2`, `L = 1`, `L' = 3`. -/
theorem scaled_interval_formula_antitone_floored_witness :
    ((0 : ℚ) < 2 ∧ 1 ≤ 1 ∧ 1 ≤ 3) ∧
    (scaled_interval 2 1 = max (2 * (4 / 5) ^ (1 - 1)) (1 / 2) ∧
     scaled_interval 2 3 ≤ scaled_interval 2 1 ∧
     (1 / 2 : ℚ) ≤ scaled_interval 2 1) :=
  ⟨⟨by norm_num, by decide, by decide⟩,
   scaled_interval_formula_antitone_floored 2 1 3 (by norm_num) (by decide) (by decide)⟩

/-- C9 counterexample: `scale_difficulty` is not free of side effects on its
component.  At level 2 it overwrites the manager's `level_duration`
(90 becomes 105), so it does mutate state of the component it belongs to. -/
theorem scale_difficulty_mutates_level_duration :
    (levelState2.scale_difficulty []).2.level_duration = 105 ∧
    levelState2.level_duration = 90 ∧
    (levelState2.scale_difficulty []).2.level_duration ≠ levelState2.level_duration := by
  refine ⟨?_, rfl, ?_⟩ <;> norm_num [LevelMState.scale_difficulty, levelState2]

/-- C9 (amended): `scale_difficulty` builds its output waves fresh (its input
wave list is read but never written, as the purely functional form shows) and
the only manager field it changes is `level_duration`, which it sets to
`90 + (level - 1) * 15`; `current_level`, `level_time`, `level_complete` and
`completion_timer` are untouched. -/
theorem scale_difficulty_frame (s : LevelMState) (waves : List LevelWave) :
    (s.scale_difficulty waves).2.current_level = s.current_level ∧
    (s.scale_difficulty waves).2.level_time = s.level_time ∧
    (s.scale_difficulty waves).2.level_complete = s.level_complete ∧
    (s.scale_difficulty waves).2.completion_timer = s.completion_timer ∧
    (s.scale_difficulty waves).2.level_duration = 90 + ((s.current_level : ℚ) - 1) * 15 ∧
    (s.scale_difficulty waves).1 = waves.map (fun w =>
      { duration := w.duration,
        enemies := w.enemies.map (fun e =>
          { e with count := scaled_count e.count s.current_level,
                   interval := scaled_interval e.interval s.current_level }) }) := by
  exact ⟨rfl, rfl, rfl, rfl, rfl, rfl⟩

/-- C5: `take_damage` spends the shield before health: while the shield
covers the hit, health is untouched; health after the call is never negative
(starting from a valid state); and concretely, shield 5 / health 100 taking
8 damage ends with shield 0 and health 97, still alive. -/
theorem take_damage_shield_first (p : PlayerState) (amount : ℤ)
    (hh : 0 ≤ p.health) (hm : 0 ≤ p.max_health) :
    0 ≤ (p.take_damage amount).1.health ∧
    (0 < p.shield → amount ≤ p.shield →
      (p.take_damage amount).1.health = p.health ∧
      (p.take_damage amount).1.shield = p.shield - amount) ∧
    PlayerState.take_damage ⟨100, 100, 5, 3⟩ 8 = (⟨97, 100, 0, 3⟩, true) := by
  refine ⟨?_, ?_, by decide⟩
  · unfold PlayerState.take_damage player_check_alive
    split_ifs <;> simp_all <;>
      first
      | omega
      | (split_ifs <;> simp_all <;> omega)
  · intro h1 h2
    unfold PlayerState.take_damage
    rw [if_pos h1, if_pos h2]
    exact ⟨rfl, rfl⟩

/-- Witness for C5 at the scenario-3 state: shield 5, health 100, 8 damage. -/
theorem take_damage_shield_first_witness :
    ((0 : ℤ) ≤ (⟨100, 100, 5, 3⟩ : PlayerState).health ∧
     (0 : ℤ) ≤ (⟨100, 100, 5, 3⟩ : PlayerState).max_health) ∧
    (0 ≤ (PlayerState.take_damage ⟨100, 100, 5, 3⟩ 8).1.health ∧
     (0 < (⟨100, 100, 5, 3⟩ : PlayerState).shield →
       (8 : ℤ) ≤ (⟨100, 100, 5, 3⟩ : PlayerState).shield →
       (PlayerState.take_damage ⟨100, 100, 5, 3⟩ 8).1.health =
         (⟨100, 100, 5, 3⟩ : PlayerState).health ∧
       (PlayerState.take_damage ⟨100, 100, 5, 3⟩ 8).1.shield =
         (⟨100, 100, 5, 3⟩ : PlayerState).shield - 8) ∧
     PlayerState.take_damage ⟨100, 100, 5, 3⟩ 8 = (⟨97, 100, 0, 3⟩, true)) :=
  ⟨⟨by decide, by decide⟩, take_damage_shield_first ⟨100, 100, 5, 3⟩ 8 (by decide) (by decide)⟩

/-- C10: when a hit reaches health (the shield does not fully absorb it) and
drives health to 0 or below, then with at least two lives the call decrements
lives by one, resets health to full and returns `true`; with exactly one life
it zeroes lives, leaves health at 0 and returns `false` — `false` is returned
precisely when lives are exhausted. -/
theorem take_damage_lethal_lives (p : PlayerState) (amount : ℤ)
    (hlives : 1 ≤ p.lives)
    (hsh : ¬(0 < p.shield ∧ p.shield ≥ amount))
    (hdead : health_after_shield p amount ≤ 0) :
    (2 ≤ p.lives →
      (p.take_damage amount).1.lives = p.lives - 1 ∧
      (p.take_damage amount).1.health = p.max_health ∧
      (p.take_damage amount).2 = true) ∧
    (p.lives = 1 →
      (p.take_damage amount).1.lives = 0 ∧
      (p.take_damage amount).1.health = 0 ∧
      (p.take_damage amount).2 = false) ∧
    ((p.take_damage amount).2 = false ↔ p.lives = 1) := by
  unfold health_after_shield at hdead
  unfold PlayerState.take_damage player_check_alive
  split_ifs at hdead ⊢ <;> simp_all <;>
    first
    | omega
    | (split_ifs <;> simp_all <;> omega)

/-- Witness for C10: health 10, no shield, 1 life, taking 10 damage. -/
theorem take_damage_lethal_lives_witness :
    ((1 : ℤ) ≤ (⟨10, 100, 0, 1⟩ : PlayerState).lives ∧
     ¬(0 < (⟨10, 100, 0, 1⟩ : PlayerState).shield ∧
        (⟨10, 100, 0, 1⟩ : PlayerState).shield ≥ 10) ∧
     health_after_shield ⟨10, 100, 0, 1⟩ 10 ≤ 0) ∧
    ((2 ≤ (⟨10, 100, 0, 1⟩ : PlayerState).lives →
       (PlayerState.take_damage ⟨10, 100, 0, 1⟩ 10).1.lives =
         (⟨10, 100, 0, 1⟩ : PlayerState).lives - 1 ∧
       (PlayerState.take_damage ⟨10, 100, 0, 1⟩ 10).1.health =
         (⟨10, 100, 0, 1⟩ : PlayerState).max_health ∧
       (PlayerState.take_damage ⟨10, 100, 0, 1⟩ 10).2 = true) ∧
     ((⟨10, 100, 0, 1⟩ : PlayerState).lives = 1 →
       (PlayerState.take_damage ⟨10, 100, 0, 1⟩ 10).1.lives = 0 ∧
       (PlayerState.take_damage ⟨10, 100, 0, 1⟩ 10).1.health = 0 ∧
       (PlayerState.take_damage ⟨10, 100, 0, 1⟩ 10).2 = false) ∧
     ((PlayerState.take_damage ⟨10, 100, 0, 1⟩ 10).2 = false ↔
       (⟨10, 100, 0, 1⟩ : PlayerState).lives = 1)) :=
  ⟨⟨by decide, by decide, by decide⟩,
   take_damage_lethal_lives ⟨10, 100, 0, 1⟩ 10 (by decide) (by decide) (by decide)⟩

/-- C6: for a non-empty timeline with a valid index, one `tick(dt)`
accumulates `dt` against the active wave's duration; if the accumulated time
reaches the duration and the index is not the last, the index advances by
one, the timer resets to 0 and the call reports a change, otherwise the index
stays put, the timer keeps the accumulated value and the call reports
"unchanged". -/
theorem update_wave_timer_tick (s : WaveState) (dt : ℚ)
    (hne : s.waves ≠ []) (hidx : s.wave_index < s.waves.length) :
    tick_result_spec s dt := by
  unfold tick_result_spec WaveState.update_wave_timer
  dsimp only
  refine ⟨fun h => ?_, fun h => ?_⟩
  · rw [if_pos (show s.waves ≠ [] ∧ s.wave_index < s.waves.length from ⟨hne, hidx⟩),
      if_pos h]
    exact ⟨rfl, rfl, rfl⟩
  · rw [if_pos (show s.waves ≠ [] ∧ s.wave_index < s.waves.length from ⟨hne, hidx⟩),
      if_neg h]
    exact ⟨rfl, rfl, decide_eq_false (fun hc => hc rfl)⟩

/-- Witness for C6: the scenario-5 timeline (durations 5 s and 10 s).  The
first tick of 5 s advances index 0 to 1 and resets the timer reporting a
change; the second tick of 10 s at the last index reports "unchanged". -/
theorem update_wave_timer_tick_witness :
    (twoWaveState.waves ≠ [] ∧ twoWaveState.wave_index < twoWaveState.waves.length ∧
     midWave.waves ≠ [] ∧ midWave.wave_index < midWave.waves.length) ∧
    (tick_result_spec twoWaveState 5 ∧ tick_result_spec midWave 10) ∧
    ((twoWaveState.update_wave_timer 5).1.wave_index = 1 ∧
     (twoWaveState.update_wave_timer 5).1.wave_timer = 0 ∧
     (twoWaveState.update_wave_timer 5).2 = true ∧
     (midWave.update_wave_timer 10).1.wave_index = 1 ∧
     (midWave.update_wave_timer 10).2 = false) :=
  ⟨⟨by decide, by decide, by decide, by decide⟩,
   ⟨update_wave_timer_tick twoWaveState 5 (by decide) (by decide),
    update_wave_timer_tick midWave 10 (by decide) (by decide)⟩,
   by norm_num [WaveState.update_wave_timer, twoWaveState, midWave, emptyWave,
     List.cons_ne_nil]⟩

/-- Helper: the full spawn-request trace for scenario 1, driving the
coordinator with six 1-second ticks.  A new LINE formation starts every 2 s
(at t = 2, 4, 6); members spawn on the ticks after their formation starts
(the hard-coded 0.2 s member delay elapses within one 1 s tick). -/
theorem c1_trace_aux :
    (c1State.simulate 1 0 6).2 =
      [(3, "basic", 340), (4, "basic", 400), (5, "basic", 460), (5, "basic", 340),
       (6, "basic", 400)] := by
  norm_num [c1State, emState0, c1Wave, rng0, EnemyMState.simulate, simulateFrom,
    EnemyMState.update, EnemyMState.set_waves, WaveState.set_waves, WaveState.get_current_wave,
    process_formation_spawns, stepFormations, startFormations, FormationPattern.update,
    get_position_for_index, lookupTimer, setTimer, FormationType.value, List.find?]
  decide

/-- C1 counterexample: with the scenario-1 wave (archetype `basic`, count 3,
interval 2.0 s, LINE layout, spacing 60) installed and the coordinator
updated in 1-second steps for 6 simulated seconds, the number of spawn
requests is 5, not the claimed 3, and no request is emitted at time 2.0 s. -/
theorem c1_not_three_spawns :
    (c1State.simulate 1 0 6).2.length ≠ 3 ∧
    ∀ r ∈ (c1State.simulate 1 0 6).2, r.1 ≠ 2 := by
  rw [c1_trace_aux]
  constructor
  · decide
  · intro r hr
    fin_cases hr <;> norm_num

/-- C1 (amended): the spec's `interval` is the time between formation
starts, not between member spawns; members follow 0.2 s apart (one per tick
here).  Six 1-second ticks therefore yield five spawn requests, at times
3, 4, 5, 5, 6 s, with x positions 340, 400, 460, 340, 400 — that is,
offsets −60, 0, +60 from the 400-pixel center within each formation, the
third formation having started at 6.0 s with no member spawned yet. -/
theorem c1_spawn_schedule :
    (c1State.simulate 1 0 6).2 =
      [(3, "basic", 340), (4, "basic", 400), (5, "basic", 460), (5, "basic", 340),
       (6, "basic", 400)] := c1_trace_aux

/-- Helper: the spawn-request trace of the malformed zero-interval wave over
four 1-second ticks: its single count-1 formation spec restarts every tick,
so spawning never stops. -/
theorem c8_zero_interval_trace :
    (zeroIntervalState.simulate 1 0 4).2 =
      [(2, "basic", 400), (3, "basic", 400), (4, "basic", 400)] := by
  norm_num [zeroIntervalState, emState0, zeroIntervalWave, rng0, EnemyMState.simulate,
    simulateFrom, EnemyMState.update, EnemyMState.set_waves, WaveState.set_waves,
    WaveState.get_current_wave, process_formation_spawns, stepFormations, startFormations,
    FormationPattern.update, get_position_for_index, lookupTimer, setTimer,
    FormationType.value, List.find?]
  decide

/-- C8 counterexample: `set_waves` does not fail fast on a malformed wave.
The zero-interval spec is installed verbatim (construction succeeds), and the
resulting formation silently spawns without bound: a spec with count 1
produces 3 spawn requests within 4 ticks. -/
theorem c8_set_waves_accepts_malformed :
    zeroIntervalState.wave_manager.waves = [zeroIntervalWave] ∧
    (zeroIntervalState.simulate 1 0 4).2.length = 3 ∧
    1 < (zeroIntervalState.simulate 1 0 4).2.length := by
  refine ⟨rfl, ?_, ?_⟩ <;> rw [c8_zero_interval_trace] <;> decide

/-- C8 (amended): timeline construction performs no validation.  A
zero-interval formation spec is accepted unchanged and silently yields an
infinite-spawn formation (a fresh instance starts on every update, so its
count-1 spec has already spawned 3 enemies after 4 ticks), and a wave with an
empty enemy list is accepted with an empty synthesized formation list,
silently yielding no spawns at all. -/
theorem c8_no_validation :
    (zeroIntervalState.simulate 1 0 4).2 =
      [(2, "basic", 400), (3, "basic", 400), (4, "basic", 400)] ∧
    emptyEnemiesState.wave_manager.waves =
      [{ duration := 60, formations := some [], enemies := [] }] ∧
    (emptyEnemiesState.simulate 1 0 4).2 = [] := by
  refine ⟨c8_zero_interval_trace, rfl, ?_⟩
  norm_num [emptyEnemiesState, emState0, emptyEnemiesWave, rng0, EnemyMState.simulate,
    simulateFrom, EnemyMState.update, EnemyMState.set_waves, WaveState.set_waves,
    WaveState.get_current_wave, process_formation_spawns, stepFormations, startFormations,
    FormationPattern.update, lookupTimer, setTimer, FormationType.value, List.find?]

/-- Helper: for an ARC formation with count 1 the guard takes angle 0, so the
returned position is the center plus the floor of the full radius
`spacing / π` (Python `int` of a nonnegative float). -/
theorem arc_one_position_eq (w xoff S r : ℤ) (hS : 0 ≤ S) :
    get_position_for_index (mkArc w xoff S 1) 0 r = w.fdiv 2 + xoff + ⌊(S : ℝ) / Real.pi⌋ := by
  have h0 : (0 : ℝ) ≤ (S : ℝ) / Real.pi :=
    div_nonneg (by exact_mod_cast hS) Real.pi_pos.le
  simp [get_position_for_index, mkArc, pyInt, h0]

/-- Helper: `⌊60 / π⌋ = 19`, from the bounds `3 < π < 3.15`. -/
theorem floor_sixty_div_pi : ⌊(60 : ℝ) / Real.pi⌋ = 19 := by
  have h3 := Real.pi_gt_three
  have h315 := Real.pi_lt_d2
  have hp : (0 : ℝ) < Real.pi := by linarith
  rw [Int.floor_eq_iff]
  constructor
  · rw [le_div_iff₀ hp]
    push_cast
    nlinarith
  · rw [div_lt_iff₀ hp]
    push_cast
    nlinarith

/-- C4 counterexample: an ARC formation with count 1, spacing 60 on an
800-wide screen raises no division-by-zero (the guard takes angle 0), but its
offset is 419, not the formation center 400: the returned position is
`center + int(radius)` with `cos 0 = 1`, not the center itself. -/
theorem arc_count_one_not_center :
    get_position_for_index (mkArc 800 0 60 1) 0 0 = 419 ∧
    (419 : ℤ) ≠ (800 : ℤ).fdiv 2 + 0 := by
  constructor
  · rw [arc_one_position_eq 800 0 60 0 (by decide)]
    have hc : ((60 : ℤ) : ℝ) = (60 : ℝ) := by norm_num
    rw [hc, floor_sixty_div_pi]
    decide
  · decide

/-- C4 (amended): for every ARC formation with count 1, computing the
position of index 0 involves no division by zero — the guard takes the angle
to be 0 — and the returned offset equals the center plus `⌊spacing / π⌋`
(the full radius through `cos 0 = 1`); it equals the center itself only when
`spacing < π`. -/
theorem arc_count_one_position (w xoff S r : ℤ) (hS : 0 ≤ S) :
    get_position_for_index (mkArc w xoff S 1) 0 r =
      w.fdiv 2 + xoff + ⌊(S : ℝ) / Real.pi⌋ :=
  arc_one_position_eq w xoff S r hS

/-- Witness for C4 (amended) at screen width 800, offset 0, spacing 60. -/
theorem arc_count_one_position_witness :
    (0 : ℤ) ≤ 60 ∧
    get_position_for_index (mkArc 800 0 60 1) 0 0 =
      (800 : ℤ).fdiv 2 + 0 + ⌊((60 : ℤ) : ℝ) / Real.pi⌋ :=
  ⟨by decide, arc_count_one_position 800 0 60 0 (by decide)⟩

/-- Helper: adjacent LINE members are exactly one spacing apart. -/
theorem line_pos_adjacent (w xoff S : ℤ) (N : ℕ) (i : ℕ) (hi : i + 1 < N) :
    line_pos w xoff S N (i + 1) - line_pos w xoff S N i = S := by
  simp only [line_pos, get_position_for_index, mkLine]
  push_cast
  ring

/-- Helper: when `(N - 1) * S` is even, the LINE offsets are symmetric about
the center: member `N - 1 - j` mirrors member `j`. -/
theorem line_pos_mirror (w xoff S : ℤ) (N : ℕ) (hdvd : 2 ∣ ((N : ℤ) - 1) * S)
    (j : ℕ) (hj : j < N) :
    line_pos w xoff S N (N - 1 - j) = 2 * (w.fdiv 2 + xoff) - line_pos w xoff S N j := by
  obtain ⟨k, hk⟩ := hdvd
  simp only [line_pos, get_position_for_index, mkLine]
  have hfd : (((N : ℤ) - 1) * S).fdiv 2 = k := by
    rw [hk]
    exact Int.mul_fdiv_cancel_left k (by norm_num)
  rw [hfd]
  have hcast : ((N - 1 - j : ℕ) : ℤ) = (N : ℤ) - 1 - (j : ℤ) := by omega
  rw [hcast]
  linear_combination hk

/-- C7 counterexample: a LINE formation with count 2 and spacing 1 (center
400) produces the offsets 400 and 401, whose set is not symmetric about the
center: the mirror image `2*400 - 401 = 399` of member 1 is not an offset.
The total width `(N-1)*S = 1` is odd, so the flooring in
`start_x = center - total_width // 2` shifts the row half a pixel right. -/
theorem line_two_spacing_one_asymmetric :
    (List.range 2).map (line_pos 800 0 1 2) = [400, 401] ∧
    2 * 400 - line_pos 800 0 1 2 1 ∉ (List.range 2).map (line_pos 800 0 1 2) := by
  decide

/-- C7 (amended): for every LINE formation with count `N ≥ 1` and spacing
`S`, adjacent offsets differ by exactly `S`; and whenever `(N - 1) * S` is
even — in particular for even spacing or odd count — the offsets are
symmetric about the formation center (member `N - 1 - j` mirrors member
`j`).  For odd `(N - 1) * S` the row is shifted by the flooring of
`total_width // 2` and symmetry fails. -/
theorem line_pos_spacing_symmetry (w xoff S : ℤ) (N : ℕ) (i : ℕ) (hi : i + 1 < N) :
    line_pos w xoff S N (i + 1) - line_pos w xoff S N i = S ∧
    (2 ∣ ((N : ℤ) - 1) * S →
      ∀ j, j < N →
        line_pos w xoff S N (N - 1 - j) = 2 * (w.fdiv 2 + xoff) - line_pos w xoff S N j) :=
  ⟨line_pos_adjacent w xoff S N i hi, fun hdvd j hj => line_pos_mirror w xoff S N hdvd j hj⟩

/-- Witness for C7 (amended) at width 800, offset 0, spacing 60, count 3. -/
theorem line_pos_spacing_symmetry_witness :
    0 + 1 < 3 ∧
    (line_pos 800 0 60 3 (0 + 1) - line_pos 800 0 60 3 0 = 60 ∧
     (2 ∣ ((3 : ℤ) - 1) * 60 →
       ∀ j, j < 3 →
         line_pos 800 0 60 3 (3 - 1 - j) =
           2 * ((800 : ℤ).fdiv 2 + 0) - line_pos 800 0 60 3 j)) :=
  ⟨by decide, line_pos_spacing_symmetry 800 0 60 3 0 (by decide)⟩
